import Mathlib

/-!
Shallow embedding of `src/executors/python-dspy-executor.py`.

The executor receives one request (program source text, a batch of examples,
a language-model configuration, and optional metric source text), loads the
program text dynamically, evaluates it on every example while catching
per-example exceptions, scores each prediction with the optional metric, and
returns either an evaluation report or a failure envelope.

The dynamic parts of Python (the effect of `exec` on a source string, the
behaviour of the external dspy library) are embedded as an oracle record
`PyEnv`: each field gives the outcome of one dynamic call site, an
`Except String` value standing for normal return versus a raised exception
carrying `str(e)`.  Everything downstream of those call sites — the control
flow of `execute_dspy_program` and `main` — is translated statement by
statement from the source.
-/

namespace PyDspyExecutor

/-- Dynamic Python values as far as the executor inspects them: strings,
numbers (modelled as rationals), `None`, and string-keyed dictionaries. -/
inductive Value where
  | str (s : String)
  | num (q : ℚ)
  | pyNone
  | dict (entries : List (String × Value))

/-- A Python dictionary with string keys, as used for examples, predictions
and configuration records. -/
abbrev PyDict := List (String × Value)

/-- Python `d.get(key)`: the value bound to `key`, if present. -/
def pyGet (d : PyDict) (key : String) : Option Value :=
  (d.find? (fun kv => kv.fst == key)).map (·.snd)

/-- Whether a value is numeric (summable by Python's `sum` starting from
the int `0`). -/
def Value.isNum : Value → Bool
  | .num _ => true
  | _ => false

/-- The Python type name of a value, as it appears in `TypeError` messages. -/
def Value.typeName : Value → String
  | .str _ => "str"
  | .num _ => "int"
  | .pyNone => "NoneType"
  | .dict _ => "dict"

/-- Python `str(v)`: the display form used when trace values are stringified. -/
def pyStr : Value → String
  | .str s => s
  | .num q => toString q
  | .pyNone => "None"
  | .dict _ => "\x7b...\x7d"

/-- One raw entry of `dspy.settings.trace` as the executor reads it: a tuple
that either has fewer than three components (`short`, dropped by the
formatter) or at least three, whose first three are the invoked module's
display string, its input dictionary, and its optional output dictionary
(components past the third are discarded by `t[:3]`). -/
inductive RawTrace where
  | short
  | full (moduleRepr : String) (traceInputs : PyDict) (traceOutputs : Option PyDict)

/-- One serialized trace record: module display string plus stringified
input and output mappings (lines 100-104 of the source). -/
structure TraceEntry where
  moduleRepr : String
  inputs : List (String × String)
  outputs : List (String × String)

/-- The trace-formatting loop (lines 96-105): keep entries with at least
three components, stringify every input and output value, and produce an
empty output mapping when the entry's outputs are falsy. -/
def formatTrace : List RawTrace → List TraceEntry
  | [] => []
  | .short :: rest => formatTrace rest
  | .full moduleRepr traceInputs traceOutputs :: rest =>
      { moduleRepr := moduleRepr
        inputs := traceInputs.map (fun kv => (kv.fst, pyStr kv.snd))
        outputs :=
          match traceOutputs with
          | some d => d.map (fun kv => (kv.fst, pyStr kv.snd))
          | none => [] } :: formatTrace rest

/-- The object built by `dspy.Example(**...)` for one example.  The executor
uses it in two ways: calling `.inputs()` on it (which may raise, modelled as
the `Except` outcome stored here) and passing it to the metric callable. -/
structure DspyExample where
  inputsResult : Except String PyDict

/-- The value returned by one metric call, as the executor inspects it with
`hasattr(metric_result, 'score')`: either a bare value, or an object exposing
a `score` property and an optional `feedback` property (line 81-85). -/
inductive MetricValue where
  | bare (value : Value)
  | scored (score : Value) (feedback : Option Value)

/-- The loaded metric callable `metric_fn(dspy_example, prediction)`; a raised
exception is an `Except.error` carrying `str(e)`. -/
abbrev MetricFn := DspyExample → PyDict → Except String MetricValue

/-- The loaded `program` object when it is a `dspy.Module`: the outcome of
`program.set_lm(lm)` and the behaviour of `program(**inputs)` under a fresh
trace scope, returning `dict(prediction)` together with the accumulated raw
trace, or raising. -/
structure DspyModule where
  setLmResult : Except String Unit
  invoke : PyDict → Except String (PyDict × List RawTrace)

/-- What `context.get("program")` produced: a `dspy.Module`, or some other
object whose runtime type displays as `typeName`, interpolated by the source's
f-string over the value of type(program). -/
inductive ProgramBinding where
  | module (m : DspyModule)
  | nonModule (typeName : String)

/-- The keyword arguments passed to `dspy.LM(...)` (lines 23-28), with the
defaults the source applies via `task_lm_config.get`. -/
structure LmArgs where
  model : Value
  apiKey : Value
  maxTokens : Value
  temperature : Value

/-- Extraction of the LM constructor arguments from the `taskLmConfig`
dictionary, with the source's defaults. -/
def lmArgsOf (cfg : PyDict) : LmArgs where
  model := (pyGet cfg "model").getD (.str "openai/gpt-4o-mini")
  apiKey := (pyGet cfg "apiKey").getD .pyNone
  maxTokens := (pyGet cfg "maxTokens").getD (.num 2000)
  temperature := (pyGet cfg "temperature").getD (.num (7 / 10))

/-- Oracle for the dynamic call sites of the executor: the outcome of
`dspy.LM(...)`, of `compile(program_code, ...)`, of
`exec(program_code, context)` followed by `context.get("program")`, of
`dspy.Example(**mapping)`, and of `exec(metric_fn_code, metric_context)`
followed by `metric_context.get("metric_fn")`. -/
structure PyEnv where
  mkLM : LmArgs → Except String Unit
  compileProgram : String → Except String Unit
  execProgram : String → Except String (Option ProgramBinding)
  mkExample : Value → Except String DspyExample
  execMetric : String → Except String (Option MetricFn)

/-- One decoded request (the four fields read by `main`). -/
structure Request where
  programCode : String
  examples : List PyDict
  taskLmConfig : PyDict
  metricFnCode : Option String

/-- One entry of the response's `results` list.  The success path appends a
dictionary with keys outputs, score and feedback but no error key, modelled
as `error = none`; the failure path appends a dictionary with empty outputs,
score 0 and the error message but no feedback key, modelled as
`feedback = none`. -/
structure ExampleResult where
  outputs : PyDict
  score : Value
  feedback : Option Value
  error : Option String

/-- The executor's response: a successful evaluation report
(`success: true` with results, scores, traces and average) or a failure
envelope (`success: false` with an error message and optional traceback). -/
inductive Response where
  | report (results : List ExampleResult) (scores : List Value)
           (traces : List (List TraceEntry)) (averageScore : ℚ)
  | failure (error : String) (traceback : Option String)

/-- Stand-in for `traceback.format_exc()`: the full traceback string built
from a raised exception's message. -/
def formatExc (msg : String) : String :=
  "Traceback (most recent call last): " ++ msg

/-- The expression `example.get('inputs', example)`: the value splatted into
`dspy.Example(**...)` — the `inputs` entry if present, else the whole
example dictionary. -/
def exampleInputsValue (ex : PyDict) : Value :=
  (pyGet ex "inputs").getD (Value.dict ex)

/-- The triple appended by the per-example `except` handler (lines 107-114):
an error result with empty outputs and score 0, the score 0, and an empty
trace. -/
def failedStep (e : String) : ExampleResult × Value × List TraceEntry :=
  (⟨[], Value.num 0, none, some e⟩, Value.num 0, [])

/-- One iteration of the evaluation loop (lines 64-114): build the dspy
example, invoke the program under a fresh trace scope, score with the metric
if present, and normalize; any raised exception is caught and produces the
`failedStep` triple. -/
def exampleStep (env : PyEnv) (metricFn : Option MetricFn) (prog : DspyModule)
    (ex : PyDict) : ExampleResult × Value × List TraceEntry :=
  match env.mkExample (exampleInputsValue ex) with
  | .error e => failedStep e
  | .ok dspyExample =>
    match dspyExample.inputsResult with
    | .error e => failedStep e
    | .ok callInputs =>
      match prog.invoke callInputs with
      | .error e => failedStep e
      | .ok (prediction, trace) =>
        match metricFn with
        | none => (⟨prediction, Value.num 0, none, none⟩, Value.num 0, formatTrace trace)
        | some f =>
          match f dspyExample prediction with
          | .error e => failedStep e
          | .ok (.scored s fb) => (⟨prediction, s, fb, none⟩, s, formatTrace trace)
          | .ok (.bare v) => (⟨prediction, v, none, none⟩, v, formatTrace trace)

/-- The evaluation loop over all examples, accumulating the `results`,
`scores` and `traces` lists in lockstep (one entry appended to each per
example, on both the success and the failure path). -/
def evalLoop (env : PyEnv) (metricFn : Option MetricFn) (prog : DspyModule) :
    List PyDict → List ExampleResult × List Value × List (List TraceEntry)
  | [] => ([], [], [])
  | ex :: rest =>
      let step := exampleStep env metricFn prog ex
      let tail := evalLoop env metricFn prog rest
      (step.1 :: tail.1, step.2.1 :: tail.2.1, step.2.2 :: tail.2.2)

/-- Python's `sum` over the scores list, started from the int `0`: adding a
non-numeric value raises `TypeError`. -/
def pySum (acc : ℚ) : List Value → Except String ℚ
  | [] => .ok acc
  | v :: rest =>
    match v with
    | .num q => pySum (acc + q) rest
    | v => .error ("unsupported operand type(s) for +: 'int' and '" ++ v.typeName ++ "'")

/-- Loading the metric callable (lines 53-57): `if metric_fn_code:` is falsy
for `None` and for the empty string; otherwise the metric source is executed
(which may raise) and `metric_context.get("metric_fn")` is read out. -/
def metricLoad (env : PyEnv) (req : Request) : Except String (Option MetricFn) :=
  match req.metricFnCode with
  | none => .ok none
  | some code => if code.isEmpty then .ok none else env.execMetric code

/-- The load phase of `execute_dspy_program` (lines 21-57): construct the LM,
compile and execute the program source, check the `program` binding exists
and is a `dspy.Module` (the two explicit checks return failure envelopes
without a traceback), bind the LM, and load the metric.  An `Except.error`
is an exception that will be caught by the function's outer handler. -/
def loadPhase (env : PyEnv) (req : Request) :
    Except String (Response ⊕ DspyModule × Option MetricFn) :=
  match env.mkLM (lmArgsOf req.taskLmConfig) with
  | .error e => .error e
  | .ok _ =>
    match env.compileProgram req.programCode with
    | .error e => .error e
    | .ok _ =>
      match env.execProgram req.programCode with
      | .error e => .error e
      | .ok none => .ok (.inl (.failure "No 'program' object defined in code" none))
      | .ok (some (.nonModule typeName)) =>
          .ok (.inl (.failure ("'program' is " ++ typeName ++ ", not dspy.Module") none))
      | .ok (some (.module prog)) =>
        match prog.setLmResult with
        | .error e => .error e
        | .ok _ =>
          match metricLoad env req with
          | .error e => .error e
          | .ok metricFn => .ok (.inr (prog, metricFn))

/-- The body of `execute_dspy_program` before the outer `except` handler:
load, run the evaluation loop, and aggregate
(`sum(scores) / len(scores) if scores else 0`, where `sum` may raise). -/
def executeBody (env : PyEnv) (req : Request) : Except String Response :=
  match loadPhase env req with
  | .error e => .error e
  | .ok (.inl resp) => .ok resp
  | .ok (.inr (prog, metricFn)) =>
      let triple := evalLoop env metricFn prog req.examples
      if triple.2.1.isEmpty then
        .ok (.report triple.1 triple.2.1 triple.2.2 0)
      else
        match pySum 0 triple.2.1 with
        | .error e => .error e
        | .ok total =>
            .ok (.report triple.1 triple.2.1 triple.2.2 (total / (triple.2.1.length : ℚ)))

/-- The function `execute_dspy_program` (lines 14-129): the body wrapped in the outer
`try/except`, which converts any uncaught exception into a failure envelope
carrying `str(e)` and `traceback.format_exc()`. -/
def execute_dspy_program (env : PyEnv) (req : Request) : Response :=
  match executeBody env req with
  | .ok resp => resp
  | .error e => .failure e (some (formatExc e))

/-- What one process run emits on stdout and which exit code it ends with. -/
structure ProcessOutcome where
  emitted : Response
  exitCode : Nat

/-- The function `main` (lines 131-154): parse the request from stdin (`parsed` is the
outcome of `json.loads` plus field extraction); on success print the
executor's response and exit 0; on failure print a failure envelope with a
traceback and exit 1. -/
def mainProcess (parsed : Except String (PyEnv × Request)) : ProcessOutcome :=
  match parsed with
  | .ok (env, req) => ⟨execute_dspy_program env req, 0⟩
  | .error e => ⟨.failure e (some (formatExc e)), 1⟩

/-! ### Helper lemmas about the evaluation loop and aggregation -/

/-- The evaluation loop is the per-example step mapped over the examples:
its three accumulated lists are pointwise images of the input list. -/
theorem evalLoop_eq (env : PyEnv) (metricFn : Option MetricFn) (prog : DspyModule)
    (exs : List PyDict) :
    evalLoop env metricFn prog exs =
      (exs.map fun ex => (exampleStep env metricFn prog ex).1,
       exs.map fun ex => (exampleStep env metricFn prog ex).2.1,
       exs.map fun ex => (exampleStep env metricFn prog ex).2.2) := by
  induction exs with
  | nil => rfl
  | cons ex rest ih => simp [evalLoop, ih]

/-- A step whose result carries an error message is exactly the
`failedStep` triple of that message. -/
theorem exampleStep_error_shape (env : PyEnv) (metricFn : Option MetricFn)
    (prog : DspyModule) (ex : PyDict) (e : String)
    (h : (exampleStep env metricFn prog ex).1.error = some e) :
    exampleStep env metricFn prog ex = failedStep e := by
  unfold exampleStep at h ⊢
  cases hmk : env.mkExample (exampleInputsValue ex) with
  | error e1 => simp [hmk, failedStep] at h ⊢; exact h
  | ok dspyExample =>
    cases hin : dspyExample.inputsResult with
    | error e2 => simp [hmk, hin, failedStep] at h ⊢; exact h
    | ok callInputs =>
      cases hinv : prog.invoke callInputs with
      | error e3 => simp [hmk, hin, hinv, failedStep] at h ⊢; exact h
      | ok pt =>
        cases metricFn with
        | none => simp [hmk, hin, hinv, failedStep] at h
        | some f =>
          cases hm : f dspyExample pt.1 with
          | error e4 => simp [hmk, hin, hinv, hm, failedStep] at h ⊢; exact h
          | ok mv =>
            cases mv with
            | bare v => simp [hmk, hin, hinv, hm, failedStep] at h
            | scored sc fb => simp [hmk, hin, hinv, hm, failedStep] at h

/-- Without a metric every step's score slot is the number `0` and the
result's feedback is absent. -/
theorem exampleStep_noMetric (env : PyEnv) (prog : DspyModule) (ex : PyDict) :
    (exampleStep env none prog ex).2.1 = Value.num 0 ∧
    (exampleStep env none prog ex).1.score = Value.num 0 ∧
    (exampleStep env none prog ex).1.feedback = none := by
  unfold exampleStep
  cases hmk : env.mkExample (exampleInputsValue ex) with
  | error e1 => simp [hmk, failedStep]
  | ok dspyExample =>
    cases hin : dspyExample.inputsResult with
    | error e2 => simp [hmk, hin, failedStep]
    | ok callInputs =>
      cases hinv : prog.invoke callInputs with
      | error e3 => simp [hmk, hin, hinv, failedStep]
      | ok pt => simp [hmk, hin, hinv]

/-- Inversion of a successful Python sum: every summed value was numeric and
the total is the starting accumulator plus their sum. -/
theorem pySum_ok_inv (l : List Value) (acc total : ℚ) (h : pySum acc l = .ok total) :
    ∃ qs : List ℚ, l = qs.map Value.num ∧ total = acc + qs.sum := by
  induction l generalizing acc with
  | nil =>
    refine ⟨[], rfl, ?_⟩
    simp [pySum] at h
    simp [h]
  | cons v rest ih =>
    cases v with
    | num q =>
      obtain ⟨qs, hqs, hsum⟩ := ih (acc + q) (by simpa [pySum] using h)
      exact ⟨q :: qs, by simp [hqs], by simp [hsum]; ring⟩
    | str s => simp [pySum] at h
    | pyNone => simp [pySum] at h
    | dict d => simp [pySum] at h

/-- A non-numeric value anywhere in the list makes the Python sum raise. -/
theorem pySum_error_of_mem (l : List Value) (acc : ℚ) (v : Value)
    (hv : v ∈ l) (hnum : v.isNum = false) : ∃ e, pySum acc l = .error e := by
  induction l generalizing acc with
  | nil => cases hv
  | cons w rest ih =>
    cases hv with
    | head =>
      cases v with
      | num q => simp [Value.isNum] at hnum
      | str s => exact ⟨_, rfl⟩
      | pyNone => exact ⟨_, rfl⟩
      | dict d => exact ⟨_, rfl⟩
    | tail _ hmem =>
      cases w with
      | num q => exact ih (acc + q) hmem
      | str s => exact ⟨_, rfl⟩
      | pyNone => exact ⟨_, rfl⟩
      | dict d => exact ⟨_, rfl⟩

/-- Summing a list of numeric zeros returns the accumulator unchanged. -/
theorem pySum_zeros {α : Type} (l : List α) (acc : ℚ) :
    pySum acc (l.map fun _ => Value.num 0) = .ok acc := by
  induction l generalizing acc with
  | nil => rfl
  | cons a rest ih => simpa [pySum] using ih acc

/-- Load-phase characterization on the fully successful path. -/
theorem loadPhase_module (env : PyEnv) (req : Request) (prog : DspyModule)
    (metricFn : Option MetricFn)
    (h1 : env.mkLM (lmArgsOf req.taskLmConfig) = .ok ())
    (h2 : env.compileProgram req.programCode = .ok ())
    (h3 : env.execProgram req.programCode = .ok (some (.module prog)))
    (h4 : prog.setLmResult = .ok ())
    (hm : metricLoad env req = .ok metricFn) :
    loadPhase env req = .ok (.inr (prog, metricFn)) := by
  simp [loadPhase, h1, h2, h3, h4, hm]

/-- The only `Sum.inl` outcomes of the load phase are the two explicit
entry-point check failures, both without a traceback. -/
theorem loadPhase_inl_inv (env : PyEnv) (req : Request) (resp : Response)
    (h : loadPhase env req = .ok (.inl resp)) :
    resp = .failure "No 'program' object defined in code" none ∨
    ∃ tn, resp = .failure ("'program' is " ++ tn ++ ", not dspy.Module") none := by
  unfold loadPhase at h
  repeat' split at h
  all_goals simp_all
  all_goals exact Or.inr ⟨_, h.symm⟩

/-- Inversion of a report-shaped response: the load phase fully succeeded,
the three lists are exactly the evaluation loop's output, and the average is
0 for an empty batch or the successful sum divided by the length. -/
theorem execute_report_inv (env : PyEnv) (req : Request)
    (rs : List ExampleResult) (ss : List Value) (ts : List (List TraceEntry)) (avg : ℚ)
    (h : execute_dspy_program env req = .report rs ss ts avg) :
    ∃ prog metricFn, loadPhase env req = .ok (.inr (prog, metricFn)) ∧
      rs = (evalLoop env metricFn prog req.examples).1 ∧
      ss = (evalLoop env metricFn prog req.examples).2.1 ∧
      ts = (evalLoop env metricFn prog req.examples).2.2 ∧
      ((ss = [] ∧ avg = 0) ∨
        (ss ≠ [] ∧ ∃ total, pySum 0 ss = .ok total ∧ avg = total / (ss.length : ℚ))) := by
  unfold execute_dspy_program at h
  cases hb : executeBody env req with
  | error e => rw [hb] at h; simp at h
  | ok resp =>
    rw [hb] at h
    subst h
    unfold executeBody at hb
    cases hl : loadPhase env req with
    | error e => rw [hl] at hb; simp at hb
    | ok branch =>
      rw [hl] at hb
      cases branch with
      | inl early =>
        simp at hb
        rcases loadPhase_inl_inv env req early hl with hfail | ⟨tn, hfail⟩ <;>
          (rw [hfail] at hb; simp at hb)
      | inr pm =>
        obtain ⟨prog, metricFn⟩ := pm
        refine ⟨prog, metricFn, rfl, ?_⟩
        simp only at hb
        by_cases he : (evalLoop env metricFn prog req.examples).2.1.isEmpty
        · rw [if_pos he] at hb
          simp at hb
          obtain ⟨h1, h2, h3, h4⟩ := hb
          refine ⟨h1.symm, h2.symm, h3.symm, Or.inl ⟨?_, h4.symm⟩⟩
          rw [← h2]
          exact List.isEmpty_iff.mp he
        · rw [if_neg he] at hb
          cases hs : pySum 0 (evalLoop env metricFn prog req.examples).2.1 with
          | error e => rw [hs] at hb; simp at hb
          | ok total =>
            rw [hs] at hb
            simp at hb
            obtain ⟨h1, h2, h3, h4⟩ := hb
            subst h1 h2 h3
            refine ⟨rfl, rfl, rfl, Or.inr ⟨?_, total, hs, h4.symm⟩⟩
            intro hnil
            rw [hnil] at he
            simp at he

/-! ### Concrete environments used by witnesses and counterexamples -/

/-- A dspy example whose `.inputs()` call returns the given mapping. -/
def dspyExampleOf (d : PyDict) : DspyExample := ⟨.ok d⟩

/-- Model of `dspy.Example(**v)` followed by `.inputs()`: succeeds on a
mapping, raises `TypeError` on anything else. -/
def defaultMkExample : Value → Except String DspyExample
  | .dict d => .ok (dspyExampleOf d)
  | v => .error ("TypeError: argument of type '" ++ v.typeName ++ "' is not a mapping")

/-- A program whose entry point echoes its input field `x` as output field
`y`, with an empty trace. -/
def echoModule : DspyModule where
  setLmResult := .ok ()
  invoke := fun callInputs => .ok ([("y", (pyGet callInputs "x").getD Value.pyNone)], [])

/-- An oracle environment in which LM construction, compilation and
program execution succeed, producing the given `program` binding and
metric binding. -/
def envWith (binding : Option ProgramBinding) (metric : Option MetricFn) : PyEnv where
  mkLM := fun _ => .ok ()
  compileProgram := fun _ => .ok ()
  execProgram := fun _ => .ok binding
  mkExample := defaultMkExample
  execMetric := fun _ => .ok metric

/-- A metric that always returns the bare string "abc" (not summable). -/
def strMetric : MetricFn := fun _ _ => .ok (.bare (Value.str "abc"))

/-- A metric that always returns the bare number 0.8. -/
def bareMetric : MetricFn := fun _ _ => .ok (.bare (Value.num (4 / 5)))

/-- A metric that always returns a structured result with score 0.5 and
feedback "ok". -/
def scoredMetric : MetricFn :=
  fun _ _ => .ok (.scored (Value.num (1 / 2)) (some (Value.str "ok")))

/-- The end-to-end echo request: two examples, no metric. -/
def echoReq : Request where
  programCode := "program = EchoModule()"
  examples := [[("x", Value.str "a")], [("x", Value.str "b")]]
  taskLmConfig := []
  metricFnCode := none


/-- When the load phase stops at one of the two explicit checks, the
executor returns that failure envelope directly. -/
theorem execute_early (env : PyEnv) (req : Request) (resp : Response)
    (h : loadPhase env req = .ok (.inl resp)) :
    execute_dspy_program env req = resp := by
  unfold execute_dspy_program executeBody
  rw [h]

/-- Load-phase characterization when the `program` binding is missing. -/
theorem loadPhase_missing (env : PyEnv) (req : Request)
    (h1 : env.mkLM (lmArgsOf req.taskLmConfig) = .ok ())
    (h2 : env.compileProgram req.programCode = .ok ())
    (h3 : env.execProgram req.programCode = .ok none) :
    loadPhase env req = .ok (.inl (.failure "No 'program' object defined in code" none)) := by
  simp [loadPhase, h1, h2, h3]

/-- Load-phase characterization when the `program` binding is not a
`dspy.Module`. -/
theorem loadPhase_wrongType (env : PyEnv) (req : Request) (tn : String)
    (h1 : env.mkLM (lmArgsOf req.taskLmConfig) = .ok ())
    (h2 : env.compileProgram req.programCode = .ok ())
    (h3 : env.execProgram req.programCode = .ok (some (.nonModule tn))) :
    loadPhase env req =
      .ok (.inl (.failure ("'program' is " ++ tn ++ ", not dspy.Module") none)) := by
  simp [loadPhase, h1, h2, h3]

/-- On a fully successful load with a nonempty batch and a successful sum,
the executor returns the report assembled from the evaluation loop. -/
theorem execute_success_shape (env : PyEnv) (req : Request) (prog : DspyModule)
    (metricFn : Option MetricFn) (total : ℚ)
    (hload : loadPhase env req = .ok (.inr (prog, metricFn)))
    (hne : req.examples ≠ [])
    (hsum : pySum 0 ((evalLoop env metricFn prog req.examples).2.1) = .ok total) :
    execute_dspy_program env req =
      .report (req.examples.map fun ex => (exampleStep env metricFn prog ex).1)
              (req.examples.map fun ex => (exampleStep env metricFn prog ex).2.1)
              (req.examples.map fun ex => (exampleStep env metricFn prog ex).2.2)
              (total / (req.examples.length : ℚ)) := by
  have hloop := evalLoop_eq env metricFn prog req.examples
  have hnil : (evalLoop env metricFn prog req.examples).2.1 ≠ [] := by
    rw [hloop]
    simpa using hne
  have hie : ¬ ((evalLoop env metricFn prog req.examples).2.1.isEmpty = true) := by
    rw [List.isEmpty_iff]
    exact hnil
  unfold execute_dspy_program executeBody
  rw [hload]
  simp only
  rw [if_neg hie, hsum]
  rw [hloop]
  simp

/-- On a fully successful load with an empty batch the executor returns the
empty report with average 0. -/
theorem execute_empty_shape (env : PyEnv) (req : Request) (prog : DspyModule)
    (metricFn : Option MetricFn)
    (hload : loadPhase env req = .ok (.inr (prog, metricFn)))
    (hempty : req.examples = []) :
    execute_dspy_program env req = .report [] [] [] 0 := by
  unfold execute_dspy_program executeBody
  rw [hload]
  simp only
  rw [hempty]
  simp [evalLoop]

/-- A raised exception anywhere in the body surfaces as a failure envelope
with `str(e)` and a traceback. -/
theorem execute_of_body_error (env : PyEnv) (req : Request) (e : String)
    (h : executeBody env req = .error e) :
    execute_dspy_program env req = .failure e (some (formatExc e)) := by
  unfold execute_dspy_program
  rw [h]

/-- A report-free `.ok` outcome of the body comes from the load phase's
explicit checks. -/
theorem executeBody_ok_failure_inv (env : PyEnv) (req : Request) (e : String)
    (tb : Option String) (h : executeBody env req = .ok (.failure e tb)) :
    loadPhase env req = .ok (.inl (.failure e tb)) := by
  unfold executeBody at h
  cases hl : loadPhase env req with
  | error e2 => rw [hl] at h; simp at h
  | ok branch =>
    rw [hl] at h
    cases branch with
    | inl resp =>
      simp at h
      rw [h]
    | inr pm =>
      obtain ⟨prog, mf⟩ := pm
      simp only [] at h
      by_cases hie : (evalLoop env mf prog req.examples).2.1.isEmpty = true
      · rw [if_pos hie] at h; simp at h
      · rw [if_neg hie] at h
        cases hs : pySum 0 (evalLoop env mf prog req.examples).2.1 with
        | error e2 => rw [hs] at h; simp at h
        | ok total => rw [hs] at h; simp at h

/-! ### Claim theorems -/

/-- Claim C3: for every successful-load response (a report, i.e.
`success = true`), `average_score` equals the arithmetic mean of the scores
sequence, and with zero examples it equals 0 (no division by zero). -/
theorem average_score_is_mean (env : PyEnv) (req : Request)
    (rs : List ExampleResult) (ss : List Value) (ts : List (List TraceEntry)) (avg : ℚ)
    (h : execute_dspy_program env req = .report rs ss ts avg) :
    (ss = [] → avg = 0) ∧
    (ss ≠ [] → ∃ qs : List ℚ, ss = qs.map Value.num ∧ avg = qs.sum / (qs.length : ℚ)) := by
  obtain ⟨prog, metricFn, hload, hrs, hss, hts, hcase⟩ :=
    execute_report_inv env req rs ss ts avg h
  rcases hcase with ⟨hnil, havg⟩ | ⟨hne, total, hsumOk, havg⟩
  · exact ⟨fun _ => havg, fun hcontra => absurd hnil hcontra⟩
  · refine ⟨fun h0 => absurd h0 hne, fun _ => ?_⟩
    obtain ⟨qs, hqs, htot⟩ := pySum_ok_inv ss 0 total hsumOk
    refine ⟨qs, hqs, ?_⟩
    rw [havg, htot, zero_add, hqs]
    simp

/-- Witness for C3: the conclusion instantiated at the concrete echo run. -/
theorem average_score_is_mean_witness :
    (([Value.num 0, Value.num 0] : List Value) = [] → (0 : ℚ) = 0) ∧
    (([Value.num 0, Value.num 0] : List Value) ≠ [] →
      ∃ qs : List ℚ, ([Value.num 0, Value.num 0] : List Value) = qs.map Value.num ∧
        (0 : ℚ) = qs.sum / (qs.length : ℚ)) :=
  average_score_is_mean (envWith (some (.module echoModule)) none) echoReq
    [⟨[("y", Value.str "a")], Value.num 0, none, none⟩,
     ⟨[("y", Value.str "b")], Value.num 0, none, none⟩]
    [Value.num 0, Value.num 0] [[], []] 0
    (by simp [execute_dspy_program, executeBody, loadPhase, metricLoad, evalLoop,
      exampleStep, envWith, echoReq, echoModule, defaultMkExample, dspyExampleOf,
      exampleInputsValue, pyGet, formatTrace, pySum])

/-- Claim C4: when the executed program source defines no "program" binding
the response is a failure envelope naming the missing entry point,
independent of the examples; when the binding is not a `dspy.Module` the
response is a failure envelope whose message contains the actual runtime
type name. -/
theorem entry_point_check_failures (env : PyEnv) (req : Request)
    (h1 : env.mkLM (lmArgsOf req.taskLmConfig) = .ok ())
    (h2 : env.compileProgram req.programCode = .ok ()) :
    (env.execProgram req.programCode = .ok none →
      ∀ exs : List PyDict,
        execute_dspy_program env ⟨req.programCode, exs, req.taskLmConfig, req.metricFnCode⟩ =
          .failure "No 'program' object defined in code" none) ∧
    (∀ tn, env.execProgram req.programCode = .ok (some (.nonModule tn)) →
      execute_dspy_program env req =
        .failure ("'program' is " ++ tn ++ ", not dspy.Module") none ∧
      ∃ pre post, "'program' is " ++ tn ++ ", not dspy.Module" = pre ++ tn ++ post) := by
  constructor
  · intro h3 exs
    exact execute_early _ _ _ (loadPhase_missing _ _ h1 h2 h3)
  · intro tn h3
    exact ⟨execute_early _ _ _ (loadPhase_wrongType _ _ tn h1 h2 h3),
      "'program' is ", ", not dspy.Module", rfl⟩

/-- Witness for C4: a concrete environment without a "program" binding and a
concrete environment binding "program" to an int. -/
theorem entry_point_check_failures_witness :
    execute_dspy_program (envWith none none)
        ⟨echoReq.programCode, [[("x", Value.num 1)]], echoReq.taskLmConfig,
          echoReq.metricFnCode⟩ =
      .failure "No 'program' object defined in code" none ∧
    execute_dspy_program (envWith (some (.nonModule "<class 'int'>")) none) echoReq =
      .failure ("'program' is " ++ "<class 'int'>" ++ ", not dspy.Module") none :=
  ⟨(entry_point_check_failures (envWith none none) echoReq rfl rfl).1 rfl
      [[("x", Value.num 1)]],
   ((entry_point_check_failures (envWith (some (.nonModule "<class 'int'>")) none) echoReq
      rfl rfl).2 "<class 'int'>" rfl).1⟩

/-- Claim C5: the process exits 0 whenever a response (report or failure
envelope, including all load-level failures) was produced and emitted; it
exits nonzero only when the request itself could not be parsed, and then a
failure envelope is still emitted before the nonzero exit. -/
theorem process_exit_contract (parsed : Except String (PyEnv × Request)) :
    (∀ env req, parsed = .ok (env, req) →
      (mainProcess parsed).exitCode = 0 ∧
      (mainProcess parsed).emitted = execute_dspy_program env req) ∧
    (∀ e, parsed = .error e →
      (mainProcess parsed).exitCode ≠ 0 ∧
      (mainProcess parsed).emitted = .failure e (some (formatExc e))) := by
  constructor
  · intro env req h
    subst h
    exact ⟨rfl, rfl⟩
  · intro e h
    subst h
    exact ⟨by simp [mainProcess], rfl⟩

/-- Witness for C5: a parsed request whose load fails (missing entry point)
still exits 0, and an unparsable request exits nonzero after emitting a
failure envelope. -/
theorem process_exit_contract_witness :
    ((mainProcess (.ok (envWith none none, echoReq))).exitCode = 0 ∧
      (mainProcess (.ok (envWith none none, echoReq))).emitted =
        execute_dspy_program (envWith none none) echoReq) ∧
    ((mainProcess (.error "Expecting value: line 1 column 1 (char 0)")).exitCode ≠ 0 ∧
      (mainProcess (.error "Expecting value: line 1 column 1 (char 0)")).emitted =
        .failure "Expecting value: line 1 column 1 (char 0)"
          (some (formatExc "Expecting value: line 1 column 1 (char 0)"))) :=
  ⟨(process_exit_contract (.ok (envWith none none, echoReq))).1 _ _ rfl,
   (process_exit_contract (.error "Expecting value: line 1 column 1 (char 0)")).2 _ rfl⟩

/-- Environment whose program is the echo module and whose metric source
defines a metric returning the bare string "abc". -/
def strMetricEnv : PyEnv := envWith (some (.module echoModule)) (some strMetric)

/-- Request whose first example's input construction raises (its `inputs`
entry is a string, not a mapping) and whose second example succeeds, with a
string-returning metric loaded. -/
def badFirstReq : Request where
  programCode := "program = EchoModule()"
  examples := [[("inputs", Value.str "bad")], [("x", Value.str "a")]]
  taskLmConfig := []
  metricFnCode := some "def metric_fn(example, prediction): return 'abc'"

/-- Request with one succeeding example whose metric score is the string
"abc". -/
def strScoreReq : Request where
  programCode := "program = EchoModule()"
  examples := [[("x", Value.str "a")]]
  taskLmConfig := []
  metricFnCode := some "def metric_fn(example, prediction): return 'abc'"

/-- Request whose first example's input construction raises and whose second
succeeds, with no metric. -/
def isolReq : Request where
  programCode := "program = EchoModule()"
  examples := [[("inputs", Value.str "bad")], [("x", Value.str "a")]]
  taskLmConfig := []
  metricFnCode := none

/-- Counterexample to claim C1 as stated: the program and metric of
`badFirstReq` load successfully and example 0 raises during input
construction, yet the response is a failure envelope — it contains no
ExampleResult at index 0 and its success flag is false — because the other
example's string score makes the final `sum(scores)` raise. -/
theorem per_example_isolation_counterexample :
    loadPhase strMetricEnv badFirstReq = .ok (.inr (echoModule, some strMetric)) ∧
    (exampleStep strMetricEnv (some strMetric) echoModule
        [("inputs", Value.str "bad")]).1.error =
      some ("TypeError: argument of type '" ++ "str" ++ "' is not a mapping") ∧
    execute_dspy_program strMetricEnv badFirstReq =
      .failure ("unsupported operand type(s) for +: 'int' and '" ++ "str" ++ "'")
        (some (formatExc ("unsupported operand type(s) for +: 'int' and '" ++ "str" ++ "'"))) :=
  ⟨rfl, rfl, rfl⟩

/-- Claim C1 (amended): assuming additionally that the final score
aggregation succeeds, a request with successful load in which example i
raises yields a report (success stays true) whose index-i result has empty
outputs, score 0 and a non-absent error with an empty trace, while every
index j carries exactly the result computed from example j alone, in input
order. -/
theorem per_example_isolation_amended
    (env : PyEnv) (req : Request) (prog : DspyModule) (metricFn : Option MetricFn)
    (i : Nat) (hi : i < req.examples.length) (e : String) (total : ℚ)
    (h1 : env.mkLM (lmArgsOf req.taskLmConfig) = .ok ())
    (h2 : env.compileProgram req.programCode = .ok ())
    (h3 : env.execProgram req.programCode = .ok (some (.module prog)))
    (h4 : prog.setLmResult = .ok ())
    (hm : metricLoad env req = .ok metricFn)
    (hfail : (exampleStep env metricFn prog (req.examples.get ⟨i, hi⟩)).1.error = some e)
    (hsum : pySum 0 ((evalLoop env metricFn prog req.examples).2.1) = .ok total) :
    execute_dspy_program env req =
      .report (req.examples.map fun ex => (exampleStep env metricFn prog ex).1)
              (req.examples.map fun ex => (exampleStep env metricFn prog ex).2.1)
              (req.examples.map fun ex => (exampleStep env metricFn prog ex).2.2)
              (total / (req.examples.length : ℚ)) ∧
    (req.examples.map fun ex => (exampleStep env metricFn prog ex).1).get
        ⟨i, by simpa using hi⟩ = ⟨[], Value.num 0, none, some e⟩ ∧
    (req.examples.map fun ex => (exampleStep env metricFn prog ex).2.2).get
        ⟨i, by simpa using hi⟩ = ([] : List TraceEntry) := by
  have hne : req.examples ≠ [] := by
    intro h0
    rw [h0] at hi
    simp at hi
  have hshape := exampleStep_error_shape env metricFn prog (req.examples.get ⟨i, hi⟩) e hfail
  refine ⟨execute_success_shape env req prog metricFn total
      (loadPhase_module env req prog metricFn h1 h2 h3 h4 hm) hne hsum, ?_, ?_⟩
  · rw [List.get_map, hshape]
    rfl
  · rw [List.get_map, hshape]
    rfl

/-- Witness for the amended C1: concrete two-example run without a metric in
which example 0 raises and example 1 succeeds. -/
theorem per_example_isolation_amended_witness :
    (execute_dspy_program (envWith (some (.module echoModule)) none) isolReq =
      .report (isolReq.examples.map fun ex =>
                 (exampleStep (envWith (some (.module echoModule)) none) none echoModule ex).1)
              (isolReq.examples.map fun ex =>
                 (exampleStep (envWith (some (.module echoModule)) none) none echoModule ex).2.1)
              (isolReq.examples.map fun ex =>
                 (exampleStep (envWith (some (.module echoModule)) none) none echoModule ex).2.2)
              ((0 : ℚ) / (isolReq.examples.length : ℚ)) ∧
    (isolReq.examples.map fun ex =>
        (exampleStep (envWith (some (.module echoModule)) none) none echoModule ex).1).get
        ⟨0, by simpa using (by decide : 0 < isolReq.examples.length)⟩ =
      ⟨[], Value.num 0, none,
        some ("TypeError: argument of type '" ++ "str" ++ "' is not a mapping")⟩ ∧
    (isolReq.examples.map fun ex =>
        (exampleStep (envWith (some (.module echoModule)) none) none echoModule ex).2.2).get
        ⟨0, by simpa using (by decide : 0 < isolReq.examples.length)⟩ =
      ([] : List TraceEntry)) :=
  per_example_isolation_amended (envWith (some (.module echoModule)) none) isolReq
    echoModule none 0 (by decide)
    ("TypeError: argument of type '" ++ "str" ++ "' is not a mapping") 0
    rfl rfl rfl rfl rfl rfl
    (by simp [evalLoop, exampleStep, envWith, defaultMkExample, exampleInputsValue,
      pyGet, pySum, isolReq, echoModule, dspyExampleOf, failedStep])

/-- Counterexample to claim C2 as stated: a one-example request whose load
succeeds but whose response is a failure envelope (no results, scores or
traces of length 1), because the example's string score makes the final sum
raise. -/
theorem lockstep_lengths_counterexample :
    loadPhase strMetricEnv strScoreReq = .ok (.inr (echoModule, some strMetric)) ∧
    strScoreReq.examples.length = 1 ∧
    execute_dspy_program strMetricEnv strScoreReq =
      .failure ("unsupported operand type(s) for +: 'int' and '" ++ "str" ++ "'")
        (some (formatExc ("unsupported operand type(s) for +: 'int' and '" ++ "str" ++ "'"))) :=
  ⟨rfl, rfl, rfl⟩

/-- Claim C2 (amended): assuming additionally that the final score
aggregation succeeds, a successful-load request with N examples yields a
report whose results, scores and traces all have length N, index i of each
describing example i. -/
theorem lockstep_lengths_amended
    (env : PyEnv) (req : Request) (prog : DspyModule) (metricFn : Option MetricFn)
    (total : ℚ)
    (h1 : env.mkLM (lmArgsOf req.taskLmConfig) = .ok ())
    (h2 : env.compileProgram req.programCode = .ok ())
    (h3 : env.execProgram req.programCode = .ok (some (.module prog)))
    (h4 : prog.setLmResult = .ok ())
    (hm : metricLoad env req = .ok metricFn)
    (hsum : pySum 0 ((evalLoop env metricFn prog req.examples).2.1) = .ok total) :
    ∃ rs ss ts avg, execute_dspy_program env req = .report rs ss ts avg ∧
      rs.length = req.examples.length ∧ ss.length = req.examples.length ∧
      ts.length = req.examples.length ∧
      rs = req.examples.map (fun ex => (exampleStep env metricFn prog ex).1) ∧
      ss = req.examples.map (fun ex => (exampleStep env metricFn prog ex).2.1) ∧
      ts = req.examples.map (fun ex => (exampleStep env metricFn prog ex).2.2) := by
  have hload := loadPhase_module env req prog metricFn h1 h2 h3 h4 hm
  by_cases hemp : req.examples = []
  · refine ⟨[], [], [], 0, execute_empty_shape env req prog metricFn hload hemp, ?_⟩
    simp [hemp]
  · exact ⟨_, _, _, _, execute_success_shape env req prog metricFn total hload hemp hsum,
      by simp, by simp, by simp, rfl, rfl, rfl⟩

/-- Witness for the amended C2 at the concrete echo run. -/
theorem lockstep_lengths_amended_witness :
    ∃ rs ss ts avg,
      execute_dspy_program (envWith (some (.module echoModule)) none) echoReq =
        .report rs ss ts avg ∧
      rs.length = echoReq.examples.length ∧ ss.length = echoReq.examples.length ∧
      ts.length = echoReq.examples.length ∧
      rs = echoReq.examples.map (fun ex =>
        (exampleStep (envWith (some (.module echoModule)) none) none echoModule ex).1) ∧
      ss = echoReq.examples.map (fun ex =>
        (exampleStep (envWith (some (.module echoModule)) none) none echoModule ex).2.1) ∧
      ts = echoReq.examples.map (fun ex =>
        (exampleStep (envWith (some (.module echoModule)) none) none echoModule ex).2.2) :=
  lockstep_lengths_amended (envWith (some (.module echoModule)) none) echoReq
    echoModule none 0 rfl rfl rfl rfl rfl
    (by simp [evalLoop, exampleStep, envWith, defaultMkExample, exampleInputsValue,
      pyGet, pySum, echoReq, echoModule, dspyExampleOf, failedStep])

/-- Claim C6: with the metric source absent, or supplied but not producing a
"metric_fn" binding (treated the same as no metric), evaluation proceeds:
the response is a report (success true, batch not aborted), every score
stays 0, every result's feedback stays absent, and the average is 0. -/
theorem missing_metric_degrades_silently
    (env : PyEnv) (req : Request) (prog : DspyModule)
    (h1 : env.mkLM (lmArgsOf req.taskLmConfig) = .ok ())
    (h2 : env.compileProgram req.programCode = .ok ())
    (h3 : env.execProgram req.programCode = .ok (some (.module prog)))
    (h4 : prog.setLmResult = .ok ())
    (hm : req.metricFnCode = none ∨
      ∃ code, req.metricFnCode = some code ∧
        (code.isEmpty = true ∨ env.execMetric code = .ok none)) :
    execute_dspy_program env req =
      .report (req.examples.map fun ex => (exampleStep env none prog ex).1)
              (req.examples.map fun _ => Value.num 0)
              (req.examples.map fun ex => (exampleStep env none prog ex).2.2)
              0 ∧
    ∀ ex, (exampleStep env none prog ex).1.score = Value.num 0 ∧
          (exampleStep env none prog ex).1.feedback = none := by
  have hmload : metricLoad env req = .ok none := by
    rcases hm with hnone | ⟨code, hcode, hrest⟩
    · simp [metricLoad, hnone]
    · rcases hrest with hempts | hexec
      · simp [metricLoad, hcode, hempts]
      · by_cases hie : code.isEmpty
        · simp [metricLoad, hcode, hie]
        · simp [metricLoad, hcode, hie, hexec]
  have hload := loadPhase_module env req prog none h1 h2 h3 h4 hmload
  have hscores : (req.examples.map fun ex => (exampleStep env none prog ex).2.1) =
      req.examples.map fun _ => Value.num 0 := by
    induction req.examples with
    | nil => rfl
    | cons a l ih => simp [ih, (exampleStep_noMetric env prog a).1]
  refine ⟨?_, fun ex =>
    ⟨(exampleStep_noMetric env prog ex).2.1, (exampleStep_noMetric env prog ex).2.2⟩⟩
  by_cases hemp : req.examples = []
  · rw [execute_empty_shape env req prog none hload hemp, hemp]
    rfl
  · have hsum : pySum 0 ((evalLoop env none prog req.examples).2.1) = .ok 0 := by
      rw [evalLoop_eq]
      simp only
      rw [hscores]
      exact pySum_zeros _ 0
    rw [execute_success_shape env req prog none 0 hload hemp hsum, hscores]
    congr 1
    exact zero_div _

/-- Environment whose metric source executes fine but binds no "metric_fn",
with a request that does supply metric source text. -/
def noMetricFnReq : Request where
  programCode := "program = EchoModule()"
  examples := [[("x", Value.str "a")]]
  taskLmConfig := []
  metricFnCode := some "def metric(example, prediction): return 1"

/-- Witness for C6: a supplied metric module defining no "metric_fn" still
produces a successful report with zero scores. -/
theorem missing_metric_degrades_silently_witness :
    execute_dspy_program (envWith (some (.module echoModule)) none) noMetricFnReq =
      .report (noMetricFnReq.examples.map fun ex =>
                (exampleStep (envWith (some (.module echoModule)) none) none echoModule ex).1)
              (noMetricFnReq.examples.map fun _ => Value.num 0)
              (noMetricFnReq.examples.map fun ex =>
                (exampleStep (envWith (some (.module echoModule)) none) none echoModule ex).2.2)
              0 :=
  (missing_metric_degrades_silently (envWith (some (.module echoModule)) none)
    noMetricFnReq echoModule rfl rfl rfl rfl
    (Or.inr ⟨"def metric(example, prediction): return 1", rfl, Or.inr rfl⟩)).1

/-- Claim C7: for a successful example with a metric present (lines 79-91),
a metric result exposing a `score` property contributes that score together
with its optional `feedback` property, and any other return value becomes
the bare score with absent feedback. -/
theorem metric_result_normalization
    (env : PyEnv) (f : MetricFn) (prog : DspyModule) (ex : PyDict)
    (dspyExample : DspyExample) (callInputs prediction : PyDict)
    (trace : List RawTrace) (mr : MetricValue)
    (hmk : env.mkExample (exampleInputsValue ex) = .ok dspyExample)
    (hin : dspyExample.inputsResult = .ok callInputs)
    (hinv : prog.invoke callInputs = .ok (prediction, trace))
    (hmr : f dspyExample prediction = .ok mr) :
    (∀ s fb, mr = .scored s fb →
      exampleStep env (some f) prog ex =
        (⟨prediction, s, fb, none⟩, s, formatTrace trace)) ∧
    (∀ v, mr = .bare v →
      exampleStep env (some f) prog ex =
        (⟨prediction, v, none, none⟩, v, formatTrace trace)) := by
  constructor
  · intro s fb hcase
    subst hcase
    simp [exampleStep, hmk, hin, hinv, hmr]
  · intro v hcase
    subst hcase
    simp [exampleStep, hmk, hin, hinv, hmr]

/-- Witness for C7: a metric returning a structured result with score 0.5
and feedback "ok" propagates both fields; a metric returning the bare number
0.8 becomes the score with absent feedback. -/
theorem metric_result_normalization_witness :
    exampleStep (envWith (some (.module echoModule)) (some scoredMetric))
        (some scoredMetric) echoModule [("x", Value.str "a")] =
      (⟨[("y", Value.str "a")], Value.num (1 / 2), some (Value.str "ok"), none⟩,
        Value.num (1 / 2), formatTrace []) ∧
    exampleStep (envWith (some (.module echoModule)) (some bareMetric))
        (some bareMetric) echoModule [("x", Value.str "a")] =
      (⟨[("y", Value.str "a")], Value.num (4 / 5), none, none⟩,
        Value.num (4 / 5), formatTrace []) :=
  ⟨(metric_result_normalization (envWith (some (.module echoModule)) (some scoredMetric))
      scoredMetric echoModule [("x", Value.str "a")]
      (dspyExampleOf [("x", Value.str "a")]) [("x", Value.str "a")]
      [("y", Value.str "a")] [] (.scored (Value.num (1 / 2)) (some (Value.str "ok")))
      rfl rfl rfl rfl).1 (Value.num (1 / 2)) (some (Value.str "ok")) rfl,
   (metric_result_normalization (envWith (some (.module echoModule)) (some bareMetric))
      bareMetric echoModule [("x", Value.str "a")]
      (dspyExampleOf [("x", Value.str "a")]) [("x", Value.str "a")]
      [("y", Value.str "a")] [] (.bare (Value.num (4 / 5)))
      rfl rfl rfl rfl).2 (Value.num (4 / 5)) rfl⟩

/-- Claim C8: end-to-end echo — two examples, no metric, an entry point
echoing input field `x` as output field `y` gives a successful report with
per-example outputs, zero scores, absent feedback and errors, and average
score 0. -/
theorem echo_end_to_end :
    execute_dspy_program (envWith (some (.module echoModule)) none) echoReq =
      .report
        [⟨[("y", Value.str "a")], Value.num 0, none, none⟩,
         ⟨[("y", Value.str "b")], Value.num 0, none, none⟩]
        [Value.num 0, Value.num 0] [[], []] 0 := by
  simp [execute_dspy_program, executeBody, loadPhase, metricLoad, evalLoop, exampleStep,
    envWith, echoReq, echoModule, defaultMkExample, dspyExampleOf, exampleInputsValue,
    pyGet, formatTrace, pySum]

/-- Claim C9: when every per-example step succeeds but some metric score is
not numeric, the final aggregation raises outside the per-example handler
and the entire response becomes a failure envelope — no per-example results,
scores, or traces are returned. -/
theorem unsummable_score_fails_batch
    (env : PyEnv) (req : Request) (prog : DspyModule) (f : MetricFn)
    (h1 : env.mkLM (lmArgsOf req.taskLmConfig) = .ok ())
    (h2 : env.compileProgram req.programCode = .ok ())
    (h3 : env.execProgram req.programCode = .ok (some (.module prog)))
    (h4 : prog.setLmResult = .ok ())
    (hm : metricLoad env req = .ok (some f))
    (hall : ∀ ex ∈ req.examples, (exampleStep env (some f) prog ex).1.error = none)
    (v : Value) (hv : v ∈ (evalLoop env (some f) prog req.examples).2.1)
    (hnum : v.isNum = false) :
    ∃ e, execute_dspy_program env req = .failure e (some (formatExc e)) := by
  obtain ⟨e, hsum⟩ := pySum_error_of_mem _ 0 v hv hnum
  have hload := loadPhase_module env req prog (some f) h1 h2 h3 h4 hm
  have hne : ¬ ((evalLoop env (some f) prog req.examples).2.1.isEmpty = true) := by
    rw [List.isEmpty_iff]
    intro h0
    rw [h0] at hv
    cases hv
  refine ⟨e, ?_⟩
  apply execute_of_body_error
  unfold executeBody
  rw [hload]
  simp only
  rw [if_neg hne, hsum]

/-- Witness for C9: the one-example request scored by a string-returning
metric yields a failure envelope. -/
theorem unsummable_score_fails_batch_witness :
    ∃ e, execute_dspy_program strMetricEnv strScoreReq =
      .failure e (some (formatExc e)) :=
  unsummable_score_fails_batch strMetricEnv strScoreReq echoModule strMetric
    rfl rfl rfl rfl rfl
    (by
      intro ex hex
      simp [strScoreReq] at hex
      subst hex
      rfl)
    (Value.str "abc")
    (by simp [evalLoop, exampleStep, strMetricEnv, envWith, defaultMkExample,
      exampleInputsValue, pyGet, strScoreReq, echoModule, dspyExampleOf, strMetric])
    rfl

/-- Claim C10: failure envelopes from the two explicit entry-point checks
never carry a traceback; every failure envelope produced from a caught
exception carries one; and a traceback-free failure envelope can only carry
one of the two check messages. -/
theorem failure_traceback_presence (env : PyEnv) (req : Request) :
    (∀ e, executeBody env req = .error e →
      execute_dspy_program env req = .failure e (some (formatExc e))) ∧
    (env.mkLM (lmArgsOf req.taskLmConfig) = .ok () →
      env.compileProgram req.programCode = .ok () →
      env.execProgram req.programCode = .ok none →
      execute_dspy_program env req = .failure "No 'program' object defined in code" none) ∧
    (∀ tn, env.mkLM (lmArgsOf req.taskLmConfig) = .ok () →
      env.compileProgram req.programCode = .ok () →
      env.execProgram req.programCode = .ok (some (.nonModule tn)) →
      execute_dspy_program env req =
        .failure ("'program' is " ++ tn ++ ", not dspy.Module") none) ∧
    (∀ e, execute_dspy_program env req = .failure e none →
      e = "No 'program' object defined in code" ∨
      ∃ tn, e = "'program' is " ++ tn ++ ", not dspy.Module") := by
  refine ⟨execute_of_body_error env req, ?_, ?_, ?_⟩
  · intro h1 h2 h3
    exact execute_early _ _ _ (loadPhase_missing _ _ h1 h2 h3)
  · intro tn h1 h2 h3
    exact execute_early _ _ _ (loadPhase_wrongType _ _ tn h1 h2 h3)
  · intro e h
    unfold execute_dspy_program at h
    cases hb : executeBody env req with
    | error e2 =>
      rw [hb] at h
      simp at h
    | ok resp =>
      rw [hb] at h
      subst h
      have hinl := executeBody_ok_failure_inv env req e none hb
      rcases loadPhase_inl_inv env req _ hinl with hmsg | ⟨tn, hmsg⟩
      · left
        injection hmsg
      · right
        refine ⟨tn, ?_⟩
        injection hmsg

/-- Environment whose program source has a syntax error, so compilation
raises. -/
def compileErrEnv : PyEnv where
  mkLM := fun _ => .ok ()
  compileProgram := fun _ => .error "SyntaxError: invalid syntax"
  execProgram := fun _ => .error "SyntaxError: invalid syntax"
  mkExample := defaultMkExample
  execMetric := fun _ => .ok none

/-- Witness for C10: a program syntax error produces a failure envelope
carrying a traceback. -/
theorem failure_traceback_presence_witness :
    execute_dspy_program compileErrEnv echoReq =
      .failure "SyntaxError: invalid syntax"
        (some (formatExc "SyntaxError: invalid syntax")) :=
  (failure_traceback_presence compileErrEnv echoReq).1 "SyntaxError: invalid syntax" rfl

end PyDspyExecutor
